import Mathlib

/-!
Shallow embedding of the Gemini Live chat engine (src/main.py together with
the tool module src/gemini_tools.py).

Modelling conventions:
* Machine-level data (strings, ids, argument maps) are Lean `String`s and
  association lists.
* A tool invocation (`await func(**function_call.args)` at main.py:101) is an
  environment parameter `Invoke`: it either returns a value (`ok`) or raises,
  in which case the Python code observes `str(e)` (`raise` carries that text).
* The module namespace of `gemini_tools` (the lookup target of
  `getattr(gemini_tools, function_call.name, None)` at main.py:98) is the list
  of module-level names bound in src/gemini_tools.py.  Dunder attributes such
  as `__name__` also exist on the Python module; they are omitted here, and no
  claim depends on them.
* Console printing and logging are not modelled; warnings are modelled as a
  Boolean flag where a claim mentions them.
-/

/-- The ASCII apostrophe character, used in strings built by the source. -/
def apos : String := String.singleton (Char.ofNat 39)

/-- Response modalities of the Live API (google.genai `types.Modality`). -/
inductive Modality where
  | TEXT
  | AUDIO
  | IMAGE
deriving DecidableEq, Repr

/-- A content part (google.genai `types.Part`): the fields the engine reads. -/
structure ContentPart where
  text : Option String
  executable_code : Option (String × String)
  code_execution_result : Option String
deriving DecidableEq, Repr

/-- `types.Part(text=t)`. -/
def mkTextPart (t : String) : ContentPart := ⟨some t, none, none⟩

/-- A conversation turn (`types.Content(parts=..., role=...)`). -/
structure Turn where
  role : String
  parts : List ContentPart
deriving DecidableEq, Repr

/-- A function call issued by the remote service (`types.FunctionCall`). -/
structure FunctionCall where
  name : String
  id : String
  args : List (String × String)
deriving DecidableEq, Repr

/-- The `response` dict of a `types.FunctionResponse`:
`{"output": result}` or `{"error": str(e)}` (main.py:102,104,106). -/
inductive ToolOutcome where
  | output (v : String)
  | error (e : String)
deriving DecidableEq, Repr

/-- `types.FunctionResponse(name=..., id=..., response=...)` (main.py:108). -/
structure FunctionResponse where
  name : String
  id : String
  response : ToolOutcome
deriving DecidableEq, Repr

/-- Result of awaiting a tool capability: a value, or a raised exception
carrying its rendered text `str(e)`. -/
inductive InvokeResult where
  | ok (v : String)
  | raise (e : String)
deriving DecidableEq, Repr

/-- The environment performing `await func(**function_call.args)`. -/
abbrev Invoke := String → List (String × String) → InvokeResult

/-- Module-level names bound in src/gemini_tools.py, in source order: the
imports (lines 1-8) and the definitions (lines 14, 29, 41, 53, 96, 113, 128,
148, 168, 226).  `getattr(gemini_tools, n, None)` succeeds exactly for these
names (dunder attributes aside, see the header note). -/
def geminiToolsAttrs : List String :=
  ["Literal", "Any", "asyncio", "dumps", "aiofiles", "aiohttp", "types",
   "read_file", "write_file", "append_file", "request",
   "all_tools", "read_file_tool", "write_file_tool", "append_file_tool",
   "request_tool", "function_declarations"]

/-- Names of the declared tools, from `all_tools` (gemini_tools.py:96). -/
def all_tools : List String := ["read_file", "write_file", "append_file", "request"]

/-- `f"Function '{function_call.name}' not found."` (main.py:106). -/
def notFoundMessage (name : String) : String :=
  "Function " ++ apos ++ name ++ apos ++ " not found."

/-- Body of the per-call loop of `handle_tool_call` (main.py:95-112): look the
name up on the `gemini_tools` module; if found, invoke and capture a raised
exception as an error outcome; otherwise produce the not-found error. -/
def handleOneCall (invoke : Invoke) (fc : FunctionCall) : FunctionResponse :=
  if geminiToolsAttrs.contains fc.name then
    match invoke fc.name fc.args with
    | .ok v => ⟨fc.name, fc.id, .output v⟩
    | .raise e => ⟨fc.name, fc.id, .error e⟩
  else
    ⟨fc.name, fc.id, .error (notFoundMessage fc.name)⟩

/-- `handle_tool_call` (main.py:85-122): one `FunctionResponse` per
`FunctionCall`, in batch order, assembled into a single reply. -/
def handle_tool_call (invoke : Invoke) (calls : List FunctionCall) : List FunctionResponse :=
  calls.map (handleOneCall invoke)

/-- `server_content.model_turn` (`types.Content` holding the model parts). -/
structure ModelTurn where
  parts : List ContentPart
deriving DecidableEq, Repr

/-- `types.LiveServerContent`: the fields the engine reads. -/
structure LiveServerContent where
  model_turn : Option ModelTurn
  grounding_metadata : Option String
deriving DecidableEq, Repr

/-- `types.LiveServerToolCall`. -/
structure LiveServerToolCall where
  function_calls : List FunctionCall
deriving DecidableEq, Repr

/-- `types.LiveServerMessage`: the fields the run loop reads. -/
structure LiveServerMessage where
  server_content : Option LiveServerContent
  tool_call : Option LiveServerToolCall
deriving DecidableEq, Repr

/-- The SDK-derived `response.text` property (read at main.py:156): the
concatenated text of the model-turn parts of `server_content`, or None when
there is no server content, no model turn, or no text part. -/
def msgText (m : LiveServerMessage) : Option String :=
  match m.server_content with
  | none => none
  | some sc =>
    match sc.model_turn with
    | none => none
    | some mt =>
      let ts := mt.parts.filterMap ContentPart.text
      if ts.isEmpty then none else some (String.join ts)

/-- The tagged event one inbound message is classified as by the chain of
checks at main.py:156-166. -/
inductive Event where
  | textEvent (t : String)
  | serverContentEvent
  | toolCallEvent (calls : List FunctionCall)
  | skipped
deriving DecidableEq, Repr

/-- The classification chain of the run loop (main.py:156-166):
`if response.text: ... elif response.server_content: ... elif
response.tool_call: ...`.  Python string truthiness makes an empty text falsy;
a message whose derived text is `some ""` necessarily has server content, so
it falls to the `server_content` branch. -/
def classify (m : LiveServerMessage) : Event :=
  match msgText m with
  | some t =>
    if t.isEmpty then .serverContentEvent
    else .textEvent t
  | none =>
    match m.server_content with
    | some _ => .serverContentEvent
    | none =>
      match m.tool_call with
      | some tc => .toolCallEvent tc.function_calls
      | none => .skipped

/-- The history-accumulation step at main.py:150-154:
`full_response.append(response.server_content.model_turn.parts[0])`, with the
bare `except` swallowing the missing-`server_content` access and the
`parts[0]` IndexError (in either case nothing is appended). -/
def firstModelPart (m : LiveServerMessage) : Option ContentPart :=
  match m.server_content with
  | some sc =>
    match sc.model_turn with
    | some mt => mt.parts.head?
    | none => none
  | none => none

/-- A message transmitted on the channel by the engine. -/
inductive Outbound where
  | userTurn (text : String) (endOfTurn : Bool)
  | toolResponseBatch (responses : List FunctionResponse)
deriving DecidableEq, Repr

/-- What one inbound message causes the engine to transmit: a tool-call event
triggers exactly one batched `LiveClientToolResponse` (main.py:114-122);
nothing is transmitted otherwise. -/
def stepMsgSent (invoke : Invoke) (m : LiveServerMessage) : List Outbound :=
  match classify m with
  | .toolCallEvent calls => [.toolResponseBatch (handle_tool_call invoke calls)]
  | _ => []

/-- Result of draining one exchange: the accumulated `full_response` list and
the messages transmitted while draining. -/
structure DrainResult where
  full_response : List ContentPart
  sent : List Outbound
deriving DecidableEq, Repr

/-- The `async for response in self.session.receive()` loop (main.py:147-166)
over the inbound messages of one exchange. -/
def drain (invoke : Invoke) (msgs : List LiveServerMessage) : DrainResult :=
  match msgs with
  | [] => ⟨[], []⟩
  | m :: rest =>
    let r := drain invoke rest
    ⟨(firstModelPart m).toList ++ r.full_response, stepMsgSent invoke m ++ r.sent⟩

/-- Python `str.lower()` (ASCII range; the quit comparison at main.py:134
only distinguishes ASCII case). -/
def pyLower (s : String) : String := String.mk (s.data.map Char.toLower)

/-- Python `str.strip()`: drop leading and trailing whitespace. -/
def pyStrip (s : String) : String :=
  String.mk (((s.data.dropWhile Char.isWhitespace).reverse.dropWhile Char.isWhitespace).reverse)

/-- `types.Content(parts=[types.Part(text=query)], role="user")` (main.py:140). -/
def mkUserTurn (q : String) : Turn := ⟨"user", [mkTextPart q]⟩

/-- Result of one iteration of the `while True` loop. -/
structure StepResult where
  history : List Turn
  sent : List Outbound
  quit : Bool
deriving DecidableEq, Repr

/-- One iteration of the run loop (main.py:131-169) on one line of user input
and the inbound messages of the resulting exchange: the quit command raises
(modelled as the `quit` flag), blank input is skipped without sending, and
otherwise a `user` turn is appended, the query is sent with `end_of_turn=True`,
the exchange is drained, and a `model` turn holding `full_response` is
appended. -/
def runStep (invoke : Invoke) (history : List Turn) (query : String)
    (inbound : List LiveServerMessage) : StepResult :=
  if pyLower query = "quit" then ⟨history, [], true⟩
  else if pyStrip query = "" then ⟨history, [], false⟩
  else
    let h1 := history ++ [mkUserTurn query]
    let d := drain invoke inbound
    ⟨h1 ++ [⟨"model", d.full_response⟩], Outbound.userTurn query true :: d.sent, false⟩

/-- The system-instruction text of the default in-class config (main.py:48). -/
def default_system_instruction : String :=
  "You are a helpful assistant running on the Google Gemini 2.0 Flash Exp model. You are running through the Multimodal Live API. Answer prompts concisely."

/-- The module-level `system_instruction` string (main.py:199-201). -/
def system_instruction : String :=
  "\nYou are a helpful assistant running on the Google Gemini 2.0 Flash Exp model. You are running on VSCode through the Multimodal Live API. To close the chat, the user must type " ++ apos ++ "quit." ++ apos ++ " Answer prompts concisely. \n"

/-- `types.LiveConnectConfig`: the fields the engine reads or writes. -/
structure LiveConnectConfig where
  response_modalities : Option (List Modality)
  system_instruction_part : Option String
  tools : List String
deriving DecidableEq, Repr

/-- The default config built when none is given (main.py:46-50). -/
def default_config : LiveConnectConfig :=
  ⟨some [Modality.TEXT], some default_system_instruction, ["google_search"]⟩

/-- The modality checks of `GeminiChat.__init__` (main.py:40-44): the first
`if` compares against `[types.Modality.TEXT]` (a `None` value also differs,
so it too is coerced, with a warning); the second `if` re-checks for `None`.
Returns the adjusted config and whether a warning was logged. -/
def coerce_config (c : LiveConnectConfig) : LiveConnectConfig × Bool :=
  let step1 : LiveConnectConfig × Bool :=
    if c.response_modalities ≠ some [Modality.TEXT] then
      (⟨some [Modality.TEXT], c.system_instruction_part, c.tools⟩, true)
    else (c, false)
  let c1 := step1.1
  let c2 : LiveConnectConfig :=
    if c1.response_modalities = none then
      ⟨some [Modality.TEXT], c1.system_instruction_part, c1.tools⟩
    else c1
  (c2, step1.2)

/-- The observable state established by `GeminiChat.__init__` (main.py:26-56):
the stored config, whether a modality warning was logged, and the initial
history holding one `system` turn with the module-level instruction text. -/
structure InitResult where
  config : LiveConnectConfig
  warned : Bool
  history : List Turn
deriving DecidableEq, Repr

/-- `GeminiChat.__init__` restricted to its observable effects. -/
def GeminiChat_init (config : Option LiveConnectConfig) : InitResult :=
  match config with
  | some c =>
    let p := coerce_config c
    ⟨p.1, p.2, [⟨"system", [mkTextPart system_instruction]⟩]⟩
  | none =>
    ⟨default_config, false, [⟨"system", [mkTextPart system_instruction]⟩]⟩

/-- Session state threaded through successive loop iterations. -/
structure SessionState where
  history : List Turn
  sent : List Outbound
  quitFlag : Bool
deriving DecidableEq, Repr

/-- The history every session starts from (main.py:54-56). -/
def session_start_history : List Turn := [⟨"system", [mkTextPart system_instruction]⟩]

/-- The run loop (main.py:131-169) over a list of user inputs, each paired
with the inbound messages of its exchange; the loop stops at the quit
command. -/
def runLoop (invoke : Invoke) (st : SessionState)
    (inputs : List (String × List LiveServerMessage)) : SessionState :=
  match inputs with
  | [] => st
  | (q, inb) :: rest =>
    if st.quitFlag then st
    else
      let r := runStep invoke st.history q inb
      runLoop invoke ⟨r.history, st.sent ++ r.sent, r.quit⟩ rest

/-! ### Concrete fixtures used by witnesses and counterexamples -/

/-- An environment in which every invocation raises. -/
def invoke0 : Invoke := fun _ _ => .raise "boom"

/-- An environment in which `read_file` raises and everything else returns. -/
def invokeW : Invoke := fun n _ =>
  if n = "read_file" then .raise "boom" else .ok "done"

/-- A two-call batch: one registered name, one unregistered. -/
def callsW : List FunctionCall := [⟨"read_file", "1", []⟩, ⟨"lookup", "2", []⟩]

/-- A two-call batch of registered names. -/
def callsW3 : List FunctionCall := [⟨"read_file", "1", []⟩, ⟨"write_file", "2", []⟩]

/-- A one-call batch with an unregistered name. -/
def lookupCalls : List FunctionCall := [⟨"lookup", "1", []⟩]

/-- A text part holding "hi". -/
def partHi : ContentPart := mkTextPart "hi"

/-- A message carrying both text content and tool-call content. -/
def msgBoth : LiveServerMessage :=
  ⟨some ⟨some ⟨[partHi]⟩, none⟩, some ⟨[⟨"read_file", "1", []⟩]⟩⟩

/-- A non-text (executable-code) model part. -/
def partA : ContentPart := ⟨none, some ("PYTHON", "x = 1"), none⟩

/-- A second non-text model part. -/
def partB : ContentPart := ⟨none, some ("PYTHON", "y = 2"), none⟩

/-- A model-content message whose model turn has two parts. -/
def msgAB : LiveServerMessage := ⟨some ⟨some ⟨[partA, partB]⟩, none⟩, none⟩

/-- A pure tool-call message (no server content). -/
def msgTool : LiveServerMessage := ⟨none, some ⟨[⟨"read_file", "1", []⟩]⟩⟩

/-- Two ordinary exchanges: two non-blank, non-quit inputs with tool-free
inbound messages. -/
def inputsW : List (String × List LiveServerMessage) := [("hi", []), ("there", [msgAB])]

/-! ### Supporting lemmas -/

/-- Each `FunctionResponse` echoes the triggering call's name. -/
lemma handleOneCall_name (invoke : Invoke) (fc : FunctionCall) :
    (handleOneCall invoke fc).name = fc.name := by
  unfold handleOneCall
  split
  · cases hr : invoke fc.name fc.args <;> simp [hr]
  · rfl

/-- Each `FunctionResponse` echoes the triggering call's id. -/
lemma handleOneCall_id (invoke : Invoke) (fc : FunctionCall) :
    (handleOneCall invoke fc).id = fc.id := by
  unfold handleOneCall
  split
  · cases hr : invoke fc.name fc.args <;> simp [hr]
  · rfl

/-- The accumulated `full_response` of a drained exchange is the first model
part of each message that has one, in arrival order. -/
lemma drain_full_response_eq (invoke : Invoke) (msgs : List LiveServerMessage) :
    (drain invoke msgs).full_response = msgs.filterMap firstModelPart := by
  induction msgs with
  | nil => rfl
  | cons m rest ih =>
    cases h : firstModelPart m <;>
      simp [drain, h, ih, List.filterMap_cons]

/-- Unrolling the run loop over exchanges that neither quit nor are blank:
each exchange appends exactly one `user` turn and then one `model` turn. -/
lemma runLoop_history_eq (invoke : Invoke)
    (inputs : List (String × List LiveServerMessage))
    (H : ∀ p ∈ inputs, pyLower p.1 ≠ "quit" ∧ pyStrip p.1 ≠ "") :
    ∀ (h : List Turn) (s : List Outbound),
    (runLoop invoke ⟨h, s, false⟩ inputs).history
      = h ++ (inputs.map
          (fun p => [mkUserTurn p.1, Turn.mk "model" (drain invoke p.2).full_response])).flatten := by
  induction inputs with
  | nil => intro h s; simp [runLoop]
  | cons p rest ih =>
    intro h s
    have hp := H p (List.mem_cons_self p rest)
    have Hrest : ∀ q ∈ rest, pyLower q.1 ≠ "quit" ∧ pyStrip q.1 ≠ "" :=
      fun q hq => H q (List.mem_cons_of_mem p hq)
    obtain ⟨q, inb⟩ := p
    simp only [runLoop, runStep]
    rw [if_neg (by simp), if_neg hp.1, if_neg hp.2]
    rw [ih Hrest]
    simp [List.append_assoc]

/-- Mapping roles over the per-exchange turn pairs gives the alternating
`user`, `model` pattern. -/
lemma roles_of_exchanges (invoke : Invoke)
    (inputs : List (String × List LiveServerMessage)) :
    ((inputs.map
        (fun p => [mkUserTurn p.1, Turn.mk "model" (drain invoke p.2).full_response])).flatten).map Turn.role
      = (List.replicate inputs.length ["user", "model"]).flatten := by
  induction inputs with
  | nil => rfl
  | cons p rest ih =>
    simp [List.replicate_succ, mkUserTurn] at ih ⊢
    exact ih

/-! ### Claim theorems -/

/-- C1: for every tool-call batch of size N ≥ 1, `handle_tool_call` produces
exactly N results whose ids are, position by position, the ids of the
requested calls (hence a bijection onto the request ids), and the batch is
transmitted as one single `toolResponseBatch` reply on the channel. -/
theorem handle_tool_call_batch_bijection (invoke : Invoke)
    (calls : List FunctionCall) (hN : calls ≠ []) :
    (handle_tool_call invoke calls).length = calls.length
    ∧ (handle_tool_call invoke calls).map FunctionResponse.id = calls.map FunctionCall.id
    ∧ stepMsgSent invoke ⟨none, some ⟨calls⟩⟩
        = [Outbound.toolResponseBatch (handle_tool_call invoke calls)] := by
  refine ⟨by simp [handle_tool_call], ?_, rfl⟩
  rw [handle_tool_call, List.map_map]
  exact List.map_congr_left (fun fc _ => handleOneCall_id invoke fc)

theorem handle_tool_call_batch_bijection_witness :
    (handle_tool_call invoke0 callsW).length = callsW.length
    ∧ (handle_tool_call invoke0 callsW).map FunctionResponse.id = callsW.map FunctionCall.id
    ∧ stepMsgSent invoke0 ⟨none, some ⟨callsW⟩⟩
        = [Outbound.toolResponseBatch (handle_tool_call invoke0 callsW)] :=
  handle_tool_call_batch_bijection invoke0 callsW (by decide)

/-- C2 (counterexample): for the unregistered call name `lookup` the code
produces the error text `Function 'lookup' not found.`, which is not the
text `tool 'lookup' not found` stated by the claim. -/
theorem not_found_text_counterexample :
    handle_tool_call invoke0 lookupCalls
      = [⟨"lookup", "1", ToolOutcome.error (notFoundMessage "lookup")⟩]
    ∧ notFoundMessage "lookup" ≠ "tool " ++ apos ++ "lookup" ++ apos ++ " not found" := by
  refine ⟨by decide, by decide⟩

/-- C2 (amended): every call whose name is not bound on the `gemini_tools`
module yields a `FunctionResult` whose outcome is the error string
`Function '<name>' not found.` (containing the name); the handler does not
raise (it returns a full batch of the same length), and a step whose exchange
carries such a batch does not terminate the session. -/
theorem handle_unregistered_tool (invoke : Invoke) (calls : List FunctionCall)
    (i : Nat) (fc : FunctionCall) (hi : calls[i]? = some fc)
    (hn : geminiToolsAttrs.contains fc.name = false) :
    (handle_tool_call invoke calls)[i]?
      = some ⟨fc.name, fc.id,
          ToolOutcome.error ("Function " ++ apos ++ fc.name ++ apos ++ " not found.")⟩
    ∧ (handle_tool_call invoke calls).length = calls.length
    ∧ (∀ (h : List Turn) (q : String), pyLower q ≠ "quit" → pyStrip q ≠ "" →
        (runStep invoke h q [⟨none, some ⟨calls⟩⟩]).quit = false) := by
  have hn' : fc.name ∉ geminiToolsAttrs := by simpa using hn
  refine ⟨?_, by simp [handle_tool_call], ?_⟩
  · rw [handle_tool_call, List.getElem?_map, hi]
    simp [handleOneCall, hn', notFoundMessage]
  · intro h q hq hb
    simp [runStep, hq, hb]

theorem handle_unregistered_tool_witness :
    (handle_tool_call invoke0 lookupCalls)[0]?
      = some ⟨"lookup", "1",
          ToolOutcome.error ("Function " ++ apos ++ "lookup" ++ apos ++ " not found.")⟩
    ∧ (handle_tool_call invoke0 lookupCalls).length = lookupCalls.length
    ∧ (runStep invoke0 [] "hello" [⟨none, some ⟨lookupCalls⟩⟩]).quit = false :=
  ⟨(handle_unregistered_tool invoke0 lookupCalls 0 ⟨"lookup", "1", []⟩
      (by decide) (by decide)).1,
   (handle_unregistered_tool invoke0 lookupCalls 0 ⟨"lookup", "1", []⟩
      (by decide) (by decide)).2.1,
   (handle_unregistered_tool invoke0 lookupCalls 0 ⟨"lookup", "1", []⟩
      (by decide) (by decide)).2.2 [] "hello" (by decide) (by decide)⟩

/-- C3: a call whose invocation raises has the rendered failure text captured
into its own result's error outcome; a sibling whose invocation returned a
value still gets a success outcome; and the handler always returns a
full-length batch (nothing propagates out of it). -/
theorem handle_tool_call_per_call_capture (invoke : Invoke)
    (calls : List FunctionCall) (i : Nat) (fc : FunctionCall)
    (hi : calls[i]? = some fc)
    (hfound : geminiToolsAttrs.contains fc.name = true) :
    (∀ e, invoke fc.name fc.args = .raise e →
        (handle_tool_call invoke calls)[i]? = some ⟨fc.name, fc.id, .error e⟩)
    ∧ (∀ v, invoke fc.name fc.args = .ok v →
        (handle_tool_call invoke calls)[i]? = some ⟨fc.name, fc.id, .output v⟩)
    ∧ (handle_tool_call invoke calls).length = calls.length := by
  have hf : fc.name ∈ geminiToolsAttrs := by simpa using hfound
  refine ⟨?_, ?_, by simp [handle_tool_call]⟩
  · intro e he
    rw [handle_tool_call, List.getElem?_map, hi]
    simp [handleOneCall, hf, he]
  · intro v hv
    rw [handle_tool_call, List.getElem?_map, hi]
    simp [handleOneCall, hf, hv]

theorem handle_tool_call_per_call_capture_witness :
    (handle_tool_call invokeW callsW3)[0]?
      = some ⟨"read_file", "1", ToolOutcome.error "boom"⟩
    ∧ (handle_tool_call invokeW callsW3)[1]?
      = some ⟨"write_file", "2", ToolOutcome.output "done"⟩ :=
  ⟨(handle_tool_call_per_call_capture invokeW callsW3 0 ⟨"read_file", "1", []⟩
      (by decide) (by decide)).1 "boom" (by decide),
   (handle_tool_call_per_call_capture invokeW callsW3 1 ⟨"write_file", "2", []⟩
      (by decide) (by decide)).2.1 "done" (by decide)⟩

/-- C4 (counterexample): the input `quit` is neither empty nor
whitespace-only, yet the loop appends no `user` turn and transmits nothing;
it terminates the session instead. -/
theorem quit_input_counterexample :
    runStep invoke0 [] "quit" [] = ⟨[], [], true⟩ ∧ pyStrip "quit" ≠ "" := by
  refine ⟨by decide, by decide⟩

/-- C4 (amended): for every input other than the case-insensitive quit
command: blank (empty or whitespace-only) input is a no-op — History is
unchanged and nothing is transmitted; any other input appends exactly one
`user` turn holding that text and transmits it first, with the explicit
end-of-turn marker. -/
theorem runStep_user_input (invoke : Invoke) (history : List Turn)
    (query : String) (inbound : List LiveServerMessage)
    (hq : pyLower query ≠ "quit") :
    (pyStrip query = "" → runStep invoke history query inbound = ⟨history, [], false⟩)
    ∧ (pyStrip query ≠ "" →
        (runStep invoke history query inbound).history
          = history ++ [mkUserTurn query, ⟨"model", (drain invoke inbound).full_response⟩]
        ∧ (runStep invoke history query inbound).sent
          = Outbound.userTurn query true :: (drain invoke inbound).sent) := by
  constructor
  · intro hb
    simp [runStep, hq, hb]
  · intro hb
    constructor <;> simp [runStep, hq, hb]

theorem runStep_user_input_witness :
    runStep invoke0 [] " " [] = ⟨[], [], false⟩
    ∧ (runStep invoke0 [] "hello" []).history
        = [] ++ [mkUserTurn "hello", ⟨"model", (drain invoke0 []).full_response⟩]
    ∧ (runStep invoke0 [] "hello" []).sent
        = Outbound.userTurn "hello" true :: (drain invoke0 []).sent :=
  ⟨(runStep_user_input invoke0 [] " " [] (by decide)).1 (by decide),
   ((runStep_user_input invoke0 [] "hello" [] (by decide)).2 (by decide)).1,
   ((runStep_user_input invoke0 [] "hello" [] (by decide)).2 (by decide)).2⟩

/-- C5 (counterexample): a message carrying both text content and tool-call
content is classified as text — the tool round-trip is skipped (nothing is
transmitted), contrary to the claimed tool-call-over-text precedence. -/
theorem text_over_tool_call_counterexample :
    msgBoth.tool_call.isSome = true
    ∧ classify msgBoth = Event.textEvent "hi"
    ∧ stepMsgSent invoke0 msgBoth = [] := by
  refine ⟨by decide, by decide, by decide⟩

/-- C5 (amended): precedence is the other way around — a message is
classified as a `ToolCallRequest` exactly when it carries tool-call content
and no server content (hence no text); text or other server content takes
priority and suppresses the tool-call classification. -/
theorem classify_tool_call_requires_no_content (m : LiveServerMessage) :
    (∀ tc, m.tool_call = some tc → m.server_content = none →
        classify m = Event.toolCallEvent tc.function_calls)
    ∧ (∀ calls, classify m = Event.toolCallEvent calls →
        m.server_content = none ∧ msgText m = none) := by
  constructor
  · intro tc htc hsc
    simp [classify, msgText, hsc, htc]
  · intro calls hcl
    cases hsc : m.server_content with
    | none => exact ⟨rfl, by simp [msgText, hsc]⟩
    | some sc =>
      exfalso
      rcases sc with ⟨mt, gm⟩
      cases mt with
      | none => simp [classify, msgText, hsc] at hcl
      | some mtv =>
        by_cases hts : (mtv.parts.filterMap ContentPart.text).isEmpty
        · simp [classify, msgText, hsc, hts] at hcl
        · simp [classify, msgText, hsc, hts] at hcl
          split at hcl <;> simp at hcl

theorem classify_tool_call_requires_no_content_witness :
    classify msgTool = Event.toolCallEvent [⟨"read_file", "1", []⟩]
    ∧ msgTool.server_content = none :=
  ⟨(classify_tool_call_requires_no_content msgTool).1 ⟨[⟨"read_file", "1", []⟩]⟩ rfl rfl,
   ((classify_tool_call_requires_no_content msgTool).2 [⟨"read_file", "1", []⟩]
      ((classify_tool_call_requires_no_content msgTool).1
        ⟨[⟨"read_file", "1", []⟩]⟩ rfl rfl)).1⟩

/-- C6 (counterexample): one model-content event carrying two parts — the
finalized `model` turn holds only the first part, not the concatenation of
every part of the event. -/
theorem model_content_parts_counterexample :
    classify msgAB = Event.serverContentEvent
    ∧ (drain invoke0 [msgAB]).full_response = [partA]
    ∧ (runStep invoke0 [] "hello" [msgAB]).history
        = [mkUserTurn "hello", ⟨"model", [partA]⟩]
    ∧ [partA] ≠ [partA, partB] := by
  refine ⟨by decide, by decide, by decide, by decide⟩

/-- C6 (amended): the `model` turn is finalized once, after the whole inbound
sequence of the exchange has drained, and its parts are, in arrival order,
the first part of each event whose server content carries a non-empty model
turn (parts after the first are dropped). -/
theorem model_turn_holds_first_parts (invoke : Invoke) (history : List Turn)
    (query : String) (inbound : List LiveServerMessage)
    (hq : pyLower query ≠ "quit") (hb : pyStrip query ≠ "") :
    (runStep invoke history query inbound).history
      = history ++ [mkUserTurn query, ⟨"model", inbound.filterMap firstModelPart⟩] := by
  simp [runStep, hq, hb, drain_full_response_eq]

theorem model_turn_holds_first_parts_witness :
    (runStep invoke0 [] "hello" [msgAB]).history
      = [] ++ [mkUserTurn "hello", ⟨"model", [msgAB].filterMap firstModelPart⟩] :=
  model_turn_holds_first_parts invoke0 [] "hello" [msgAB] (by decide) (by decide)

/-- C7: after k exchanges whose inputs are neither blank nor the quit command
and whose inbound events carry no tool calls, History is the leading `system`
turn followed by exactly k `user` turns and k `model` turns in strict
alternation. -/
theorem runLoop_alternation (invoke : Invoke)
    (inputs : List (String × List LiveServerMessage))
    (H : ∀ p ∈ inputs, pyLower p.1 ≠ "quit" ∧ pyStrip p.1 ≠ "")
    (Htf : ∀ p ∈ inputs, ∀ m ∈ p.2, m.tool_call = none) :
    ((runLoop invoke ⟨session_start_history, [], false⟩ inputs).history).map Turn.role
      = "system" :: (List.replicate inputs.length ["user", "model"]).flatten := by
  rw [runLoop_history_eq invoke inputs H session_start_history []]
  rw [List.map_append, roles_of_exchanges]
  rfl

theorem runLoop_alternation_witness :
    ((runLoop invoke0 ⟨session_start_history, [], false⟩ inputsW).history).map Turn.role
      = "system" :: (List.replicate inputsW.length ["user", "model"]).flatten :=
  runLoop_alternation invoke0 inputsW
    (by intro p hp; fin_cases hp <;> exact ⟨by decide, by decide⟩)
    (by intro p hp; fin_cases hp <;> intro m hm <;> fin_cases hm <;> rfl)

/-- C8: whatever configuration is passed to construction, the stored config's
response modality is exactly text afterwards; a present config whose modality
request differs from text-only is coerced with a warning, and an absent
config yields the text-only default. -/
theorem init_modality_text_only (config : Option LiveConnectConfig) :
    (GeminiChat_init config).config.response_modalities = some [Modality.TEXT]
    ∧ (∀ c, config = some c → c.response_modalities ≠ some [Modality.TEXT] →
        (GeminiChat_init config).warned = true) := by
  constructor
  · cases config with
    | none => rfl
    | some c =>
      simp only [GeminiChat_init, coerce_config]
      by_cases h : c.response_modalities = some [Modality.TEXT]
      · simp [h]
      · simp [h]
  · intro c hc hne
    subst hc
    simp [GeminiChat_init, coerce_config, hne]

theorem init_modality_text_only_witness :
    (GeminiChat_init (some ⟨some [Modality.AUDIO], none, []⟩)).config.response_modalities
      = some [Modality.TEXT]
    ∧ (GeminiChat_init (some ⟨some [Modality.AUDIO], none, []⟩)).warned = true :=
  ⟨(init_modality_text_only (some ⟨some [Modality.AUDIO], none, []⟩)).1,
   (init_modality_text_only (some ⟨some [Modality.AUDIO], none, []⟩)).2
     ⟨some [Modality.AUDIO], none, []⟩ rfl (by decide)⟩

/-- C9: the reply batch preserves the request order — the i-th result carries
the i-th call's name and id. -/
theorem handle_tool_call_preserves_order (invoke : Invoke)
    (calls : List FunctionCall) (i : Nat) (fc : FunctionCall)
    (hi : calls[i]? = some fc) :
    (handle_tool_call invoke calls)[i]? = some (handleOneCall invoke fc)
    ∧ (handleOneCall invoke fc).name = fc.name
    ∧ (handleOneCall invoke fc).id = fc.id := by
  refine ⟨?_, handleOneCall_name invoke fc, handleOneCall_id invoke fc⟩
  rw [handle_tool_call, List.getElem?_map, hi]
  rfl

theorem handle_tool_call_preserves_order_witness :
    (handle_tool_call invokeW callsW3)[1]?
      = some (handleOneCall invokeW ⟨"write_file", "2", []⟩)
    ∧ (handleOneCall invokeW ⟨"write_file", "2", []⟩).name = "write_file"
    ∧ (handleOneCall invokeW ⟨"write_file", "2", []⟩).id = "2" :=
  handle_tool_call_preserves_order invokeW callsW3 1 ⟨"write_file", "2", []⟩ (by decide)

/-- C10: name resolution runs against the whole `gemini_tools` module
namespace, not only the declared tools: `dumps` (imported from `json`) is
none of the declared tool names, yet lookup succeeds and the attribute is
invoked — the call's outcome is whatever the invocation yields, not the
not-found error. -/
theorem tool_lookup_module_namespace (invoke : Invoke) :
    "dumps" ∈ geminiToolsAttrs
    ∧ "dumps" ∉ all_tools
    ∧ handleOneCall invoke ⟨"dumps", "7", []⟩
        = ⟨"dumps", "7",
           match invoke "dumps" [] with
           | InvokeResult.ok v => ToolOutcome.output v
           | InvokeResult.raise e => ToolOutcome.error e⟩ := by
  refine ⟨by decide, by decide, ?_⟩
  have h : ("dumps" : String) ∈ geminiToolsAttrs := by decide
  simp only [handleOneCall]
  rw [if_pos (by simpa using h)]
  cases hr : invoke "dumps" [] <;> simp [hr]

theorem tool_lookup_module_namespace_witness :
    "dumps" ∈ geminiToolsAttrs
    ∧ "dumps" ∉ all_tools
    ∧ handleOneCall invoke0 ⟨"dumps", "7", []⟩
        = ⟨"dumps", "7",
           match invoke0 "dumps" [] with
           | InvokeResult.ok v => ToolOutcome.output v
           | InvokeResult.raise e => ToolOutcome.error e⟩ :=
  tool_lookup_module_namespace invoke0
